import Mathlib

/-!
# Verification of the OpenJSCAD boolean-engine specification

Shallow embedding of the CSG kernel excerpt of the `jbroll/OpenJSCAD.org`
repository.  Floating-point coordinates are embedded as exact rationals (`ℚ`);
JavaScript `null`-able cached fields become `Option`; functions of the source
that mutate their argument (the cache write in `measureBoundingSphere`) are
embedded in state-passing style, returning the updated polygon alongside the
result.

The files under verification:
* `src/geometries/poly3/create.js` — `create`
* `src/geometries/poly3/invert.js` — `invert`
* `measureBoundingSphere` (direct-property-cache version)
* `minkowskiSum` (operand validation and dispatch)
* the `snapPolygons` unit test (pinning grid-quantisation behaviour)

The boolean-operation engine itself (`union`/`subtract`/`intersect`,
`splitPolygonByPlane`, `snapPolygons`) is not present in the excerpt — only its
tests, benchmarks and callers are — so those components are modelled from the
specification, as marked in the individual doc comments.
-/

/-- A 3D point: triple of exact rationals (the source uses JS doubles). -/
abbrev Vec3 : Type := ℚ × ℚ × ℚ

/-- A plane `(nx, ny, nz, w)` representing `n·p = w` (source `plane` type). -/
abbrev Plane4 : Type := ℚ × ℚ × ℚ × ℚ

/-- Coordinate access helpers. -/
def Vec3.x (v : Vec3) : ℚ := v.1

/-- y coordinate. -/
def Vec3.y (v : Vec3) : ℚ := v.2.1

/-- z coordinate. -/
def Vec3.z (v : Vec3) : ℚ := v.2.2

/-- Squared distance between two points (source `vec3.squaredDistance`). -/
def squaredDistance (a b : Vec3) : ℚ :=
  (a.x - b.x) ^ 2 + (a.y - b.y) ^ 2 + (a.z - b.z) ^ 2

/-- Linear interpolation `a + t·(b - a)` (source `vec3.lerp`). -/
def lerp (a b : Vec3) (t : ℚ) : Vec3 :=
  (a.x + t * (b.x - a.x), a.y + t * (b.y - a.y), a.z + t * (b.z - a.z))

/-- Signed distance of a point to a plane: `n·v - w`
(source `vec3.dot(plane, vertex) - plane[3]`). -/
def signedDistance (pl : Plane4) (v : Vec3) : ℚ :=
  pl.1 * v.x + pl.2.1 * v.y + pl.2.2.1 * v.z - pl.2.2.2

/-- Flip a plane: negate all four components (source `plane.flip`). -/
def planeFlip (pl : Plane4) : Plane4 :=
  (-pl.1, -pl.2.1, -pl.2.2.1, -pl.2.2.2)

/-- The polygon record of `poly3/create.js`: a vertex list plus the two lazily
computed caches, initialised to `null` (here `none`). -/
structure Poly3 where
  vertices : List Vec3
  plane : Option Plane4
  boundingSphere : Option (Vec3 × ℚ)
  deriving DecidableEq

/-- Embedding of `poly3.create` from `src/geometries/poly3/create.js`: an `undefined`
argument (here `none`) or a list of fewer than 3 vertices is replaced by the
empty vertex list; both caches start out `null`. -/
def create (vertices : Option (List Vec3)) : Poly3 :=
  match vertices with
  | none => { vertices := [], plane := none, boundingSphere := none }
  | some vs =>
    if vs.length < 3 then { vertices := [], plane := none, boundingSphere := none }
    else { vertices := vs, plane := none, boundingSphere := none }

/-- Embedding of `poly3.invert` from `src/geometries/poly3/invert.js`: build the reversed
vertex list (the source loop `vertices[i] = src[len - 1 - i]`), create a fresh
polygon from it, and flip the cached plane onto the fresh polygon when the
input has one.  The source only reads its argument, so the embedding is a pure
function of the input polygon. -/
def invert (polygon : Poly3) : Poly3 :=
  let vertices := polygon.vertices.reverse
  let inverted := create (some vertices)
  match polygon.plane with
  | some pl => { inverted with plane := some (planeFlip pl) }
  | none => inverted

/-- One step of the min/max tracking loop of `measureBoundingSphere`
(`part_008`, lines 35–43): the accumulator carries the six tracked vertices
`(minx, miny, minz, maxx, maxy, maxz)` and is updated by comparing one
coordinate of the incoming vertex against the corresponding tracked vertex. -/
def bsStep (acc : Vec3 × Vec3 × Vec3 × Vec3 × Vec3 × Vec3) (v : Vec3) :
    Vec3 × Vec3 × Vec3 × Vec3 × Vec3 × Vec3 :=
  let (minx, miny, minz, maxx, maxy, maxz) := acc
  ( if minx.x > v.x then v else minx,
    if miny.y > v.y then v else miny,
    if minz.z > v.z then v else minz,
    if maxx.x < v.x then v else maxx,
    if maxy.y < v.y then v else maxy,
    if maxz.z < v.z then v else maxz )

/-- Keep the vertex with the smaller `key` coordinate (the shape of each
`min*` update in the loop of `part_008`). -/
def minBy (key : Vec3 → ℚ) (m v : Vec3) : Vec3 := if key m > key v then v else m

/-- Keep the vertex with the larger `key` coordinate (the shape of each
`max*` update in the loop of `part_008`). -/
def maxBy (key : Vec3 → ℚ) (m v : Vec3) : Vec3 := if key m < key v then v else m

/-- The bounding-sphere computation of `measureBoundingSphere` (`part_008`,
lines 26–51) for a non-empty vertex list `v0 :: rest`: all six trackers start
at `vertices[0]` and the loop runs over every vertex.  The center is the
midpoint of the axis-aligned extremes; the source stores
`Math.sqrt(x*x + y*y + z*z)` as the radius — to stay in exact arithmetic we
store that radicand, i.e. the squared radius, which is order-isomorphic to the
radius for the comparisons the kernel performs. -/
def computeBoundingSphere (v0 : Vec3) (rest : List Vec3) : Vec3 × ℚ :=
  let acc := (v0 :: rest).foldl bsStep (v0, v0, v0, v0, v0, v0)
  let minx := acc.1
  let miny := acc.2.1
  let minz := acc.2.2.1
  let maxx := acc.2.2.2.1
  let maxy := acc.2.2.2.2.1
  let maxz := acc.2.2.2.2.2
  let cx := (minx.x + maxx.x) * (1 / 2)
  let cy := (miny.y + maxy.y) * (1 / 2)
  let cz := (minz.z + maxz.z) * (1 / 2)
  let x := cx - maxx.x
  let y := cy - maxy.y
  let z := cz - maxz.z
  ((cx, cy, cz), x * x + y * y + z * z)

/-- Embedding of `measureBoundingSphere` from `part_008`: return the direct-property cache
when present; return the zero sphere for an empty polygon (the source returns
early, *without* writing the cache); otherwise compute the sphere and store it
on the polygon.  The source mutates `polygon.boundingSphere`, so the embedding
returns the updated polygon alongside the measured sphere. -/
def measureBoundingSphere (polygon : Poly3) : (Vec3 × ℚ) × Poly3 :=
  match polygon.boundingSphere with
  | some s => (s, polygon)
  | none =>
    match polygon.vertices with
    | [] => (((0, 0, 0), 0), polygon)
    | v0 :: rest =>
      let out := computeBoundingSphere v0 rest
      (out, { polygon with boundingSphere := some out })

/-- Modelled from the spec: the lazily cached plane of a polygon.  The
implementation of `poly3.plane` is not part of the excerpt (only
`create.js`/`invert.js` are); the spec (§3) states the plane is "lazily
computed, cached once computed" and "derived from three non-collinear points by
cross product of edge vectors, normalized".  We cache exactly as specified and
compute the cross-product plane of the first three vertices; the normalisation
(a square root) is omitted since it does not affect the caching behaviour under
verification, and a degenerate vertex list yields the zero plane. -/
def planeOf (polygon : Poly3) : Plane4 × Poly3 :=
  match polygon.plane with
  | some pl => (pl, polygon)
  | none =>
    match polygon.vertices with
    | a :: b :: c :: _ =>
      let u : Vec3 := (b.x - a.x, b.y - a.y, b.z - a.z)
      let w : Vec3 := (c.x - a.x, c.y - a.y, c.z - a.z)
      let n : Vec3 := (u.y * w.z - u.z * w.y, u.z * w.x - u.x * w.z,
                       u.x * w.y - u.y * w.x)
      let pl : Plane4 := (n.x, n.y, n.z, n.x * a.x + n.y * a.y + n.z * a.z)
      (pl, { polygon with plane := some pl })
    | _ =>
      let pl : Plane4 := (0, 0, 0, 0)
      (pl, { polygon with plane := some pl })

/-- Modelled from the spec: the boolean-operation engine (`union`, `subtract`,
`intersect`, spec §4.3) is not part of the excerpt — only its benchmarks and
callers are.  The spec settles its claims "up to polygon-set equivalence (same
enclosed volume)" (§8), so a solid is modelled by its enclosed volume: a
decidable membership predicate on rational points. -/
structure Solid where
  inside : Vec3 → Bool

/-- Modelled from the spec: an empty operand, "zero polygons" (§4.3) — it
encloses no volume. -/
def emptySolid : Solid := ⟨fun _ => false⟩

/-- Modelled from the spec: `union` combines the enclosed volumes of its two
operands (§4.3 step 3 computes the boundary of the combined volume). -/
def unionOp (a b : Solid) : Solid := ⟨fun p => a.inside p || b.inside p⟩

/-- Modelled from the spec: `invert` flips a solid inside-out (§4.2
`invert()`); the enclosed volume becomes the complement. -/
def invertOp (a : Solid) : Solid := ⟨fun p => !a.inside p⟩

/-- Modelled from the spec, §4.3 step 5: "**Intersect(A, B)**: invert both
operands, union them, invert the result". -/
def intersectOp (a b : Solid) : Solid := invertOp (unionOp (invertOp a) (invertOp b))

/-- Modelled from the spec, §4.3 step 4: "**Subtract(A, B)**: invert A;
union-style clip sequence against B; invert result back" — the volume kept is
the part of A outside B. -/
def subtractOp (a b : Solid) : Solid := invertOp (unionOp (invertOp a) b)

/-- Two solids "enclose the same volume" (spec §8: measured volume and bounding
box are functions of the enclosed point set). -/
def sameVolume (a b : Solid) : Prop := ∀ p : Vec3, a.inside p = b.inside p

/-- The splitting tolerance: "EPS (default 1e-5, a configurable tolerance)"
(spec §4.1). -/
def EPS : ℚ := 1 / 100000

/-- Modelled from the spec: outcome of classifying one polygon against a
splitting plane (§4.1 — COPLANAR front/back, FRONT, BACK, or SPANNING with the
two optional surviving fragments). -/
inductive SplitOutcome where
  | coplanarFront (vs : List Vec3)
  | coplanarBack (vs : List Vec3)
  | front (vs : List Vec3)
  | back (vs : List Vec3)
  | spanning (frontFragment backFragment : Option (List Vec3))
  deriving DecidableEq

/-- Modelled from the spec: the duplicate-vertex-removal inner loop (§4.1
"avoid producing degenerate near-zero-area fragments", §5 "duplicate-vertex-
removal inner loops as the primary hot paths"): walking the cyclic vertex list,
a vertex whose squared distance to the previously retained vertex (initially
the last vertex of the list) is below `EPS²` is removed. -/
def dedupVertices (prev : Vec3) : List Vec3 → List Vec3
  | [] => []
  | v :: rest =>
    if squaredDistance v prev < EPS * EPS then dedupVertices prev rest
    else v :: dedupVertices v rest

/-- Cyclic duplicate removal: the initial comparison vertex is the last vertex
of the list. -/
def dedupCyclic (vs : List Vec3) : List Vec3 :=
  match vs.getLast? with
  | none => vs
  | some last => dedupVertices last vs

/-- Modelled from the spec, §4.1 SPANNING: the contribution of one directed
edge `(v, next)` to the front and back vertex lists.  The edge's start vertex
goes to the front list when beyond `EPS` in front, to the back list when
beyond `EPS` behind, and to both lists when within `EPS` of the plane (the
tie-break: "vertices within EPS of the plane are … snapped to both sides");
when the two endpoints lie strictly on opposite sides (beyond EPS) the
interpolated intersection point `lerp(A, B, t)` with `t = distA/(distA-distB)`
is appended to both lists. -/
def edgeContrib (pl : Plane4) (v vnext : Vec3) : List Vec3 × List Vec3 :=
  let d := signedDistance pl v
  let dn := signedDistance pl vnext
  let fr := if d < -EPS then [] else [v]
  let bk := if d > EPS then [] else [v]
  if (d > EPS ∧ dn < -EPS) ∨ (d < -EPS ∧ dn > EPS) then
    let t := d / (d - dn)
    let ip := lerp v vnext t
    (fr ++ [ip], bk ++ [ip])
  else (fr, bk)

/-- Walk the edge list (each vertex paired with its cyclic successor) and
accumulate the front and back vertex lists of a spanning split. -/
def spanLists (pl : Plane4) (vs : List Vec3) : List Vec3 × List Vec3 :=
  ((vs.zip (vs.rotate 1)).map (fun p => edgeContrib pl p.1 p.2)).foldr
    (fun contrib acc => (contrib.1 ++ acc.1, contrib.2 ++ acc.2)) ([], [])

/-- Modelled from the spec: `splitPolygonByPlane` (spec §4.1; the
implementation lives outside the excerpt — only benchmarks reference it).
Classify the polygon's vertices by signed distance against the shared `EPS`
tolerance; a polygon with every vertex within `EPS` is COPLANAR (front or back
by the sign of the dot product of the polygon's own normal with the plane
normal), with every distance `≥ -EPS` FRONT, with every distance `≤ EPS` BACK,
and otherwise SPANNING: the accumulated front/back lists are deduplicated and
"either resulting fragment [is discarded] if it collapses to fewer than 3
vertices".  The function is total: no outcome is an error. -/
def splitPolygonByPlane (pl : Plane4) (polygon : Poly3) : SplitOutcome :=
  let vs := polygon.vertices
  let ds := vs.map (signedDistance pl)
  let hasFront := ds.any (fun d => d > EPS)
  let hasBack := ds.any (fun d => d < -EPS)
  if ¬hasFront ∧ ¬hasBack then
    let n := (planeOf polygon).1
    if pl.1 * n.1 + pl.2.1 * n.2.1 + pl.2.2.1 * n.2.2.1 ≥ 0 then
      SplitOutcome.coplanarFront vs
    else SplitOutcome.coplanarBack vs
  else if ¬hasBack then SplitOutcome.front vs
  else if ¬hasFront then SplitOutcome.back vs
  else
    let fr := dedupCyclic (spanLists pl vs).1
    let bk := dedupCyclic (spanLists pl vs).2
    SplitOutcome.spanning
      (if 3 ≤ fr.length then some fr else none)
      (if 3 ≤ bk.length then some bk else none)

/-- JavaScript `Math.round`: round half toward positive infinity. -/
def jsRound (q : ℚ) : ℤ := ⌊q + 1 / 2⌋

/-- Snap one coordinate to the tolerance grid: `Math.round(v / tolerance) *
tolerance` (the `vec3.snap` leaf used by `snapPolygons`). -/
def snapCoord (tolerance x : ℚ) : ℚ := (jsRound (x / tolerance) : ℚ) * tolerance

/-- Snap a vertex to the tolerance grid, componentwise. -/
def snapVec (tolerance : ℚ) (v : Vec3) : Vec3 :=
  (snapCoord tolerance v.x, snapCoord tolerance v.y, snapCoord tolerance v.z)

/-- Retain the vertices that differ from their cyclic successor (a vertex equal
to the next one is a duplicate and is removed).  The repository's
`snapPolygons` unit test pins this behaviour: `[a, b, c, c]` becomes
`[a, b, c]` and a fully repeated cycle becomes empty. -/
def dropCyclicDuplicates (vs : List Vec3) : List Vec3 :=
  ((vs.zip (vs.rotate 1)).filter (fun p => p.1 ≠ p.2)).map (fun p => p.1)

/-- Modelled from the spec: `snapPolygons` (spec §4.4; the implementation is
outside the excerpt — the excerpt holds its unit test).  Each vertex is
quantised to a tolerance-sized grid (§4.4 names grid quantisation as the
implemented strategy; the unit test's expected output is exactly the
grid-rounded input), duplicate vertices of the resulting cycle are removed, and
"polygons that degenerate to fewer than 3 distinct vertices after snapping …
are dropped from the result" — the filter keeps polygons with more than 2
vertices. -/
def snapPolygons (tolerance : ℚ) (polygons : List Poly3) : List Poly3 :=
  (polygons.map (fun polygon =>
    let snapped := polygon.vertices.map (snapVec tolerance)
    create (some (dropCyclicDuplicates snapped)))).filter
    (fun polygon => 2 < polygon.vertices.length)

/-- A `geom3` as the boolean core sees it: a flat list of polygons (spec §6:
"an ordered sequence of polygons", transform already baked in). -/
abbrev Geom3 : Type := List Poly3

/-- A JavaScript argument value as received by an operator entry: either a
proper `geom3` or some non-geometry value (`geom3.isA` fails on the latter). -/
inductive JSValue where
  | geom (g : Geom3)
  | other (description : String)

/-- Embedding of `geom3.isA` as used at the `minkowskiSum` entry (`part_006`, line 48). -/
def isGeom3 : JSValue → Bool
  | JSValue.geom _ => true
  | JSValue.other _ => false

/-- The errors thrown by `minkowskiSum` (`part_006`), with their exact
messages. -/
inductive MinkErr where
  | atLeastTwo
  | exactlyTwo
  | requiresGeom3
  | twoNonConvex
  deriving DecidableEq

/-- The message attached to each `minkowskiSum` error (`part_006`, lines
39/43/49/71). -/
def minkErrMessage : MinkErr → String
  | MinkErr.atLeastTwo => "minkowskiSum requires at least two geometries"
  | MinkErr.exactlyTwo => "minkowskiSum currently supports exactly two geometries"
  | MinkErr.requiresGeom3 => "minkowskiSum requires geom3 geometries"
  | MinkErr.twoNonConvex => "minkowskiSum of two non-convex geometries is not yet supported"

/-- Embedding of `minkowskiSum` from `part_006`, lines 35–72, after `flatten` (the argument
list is taken already flattened).  The convexity analysis (`isConvex`) and the
geometry-construction paths (`minkowskiSumConvex`,
`minkowskiSumNonConvexConvex`) are not needed by the claims under
verification, so the function is parameterised over them: any theorem whose
conclusion is independent of `isConvexFn`, `sumConvex` and `sumNonConvex`
holds *before* any convexity analysis or geometry construction is performed.
The validation order is the source's: operand-count checks first, then the
`geom3.isA` check on both operands, then the convexity dispatch. -/
def minkowskiSum (isConvexFn : Geom3 → Bool) (sumConvex sumNonConvex : Geom3 → Geom3 → Geom3)
    (geometries : List JSValue) : Except MinkErr Geom3 :=
  if geometries.length < 2 then Except.error MinkErr.atLeastTwo
  else if 2 < geometries.length then Except.error MinkErr.exactlyTwo
  else
    match geometries with
    | [a, b] =>
      if !isGeom3 a || !isGeom3 b then Except.error MinkErr.requiresGeom3
      else
        match a, b with
        | JSValue.geom geomA, JSValue.geom geomB =>
          let aConvex := isConvexFn geomA
          let bConvex := isConvexFn geomB
          if aConvex && bConvex then Except.ok (sumConvex geomA geomB)
          else if !aConvex && bConvex then Except.ok (sumNonConvex geomA geomB)
          else if aConvex && !bConvex then Except.ok (sumNonConvex geomB geomA)
          else Except.error MinkErr.twoNonConvex
        | _, _ => Except.error MinkErr.requiresGeom3
    | _ => Except.error MinkErr.atLeastTwo

/-- Claim C1: for every two well-formed solids A and B, `intersect(A,B)` equals
`invert(union(invert(A), invert(B)))` up to polygon-set equivalence (the two
results enclose the same volume), the intersect operator being implemented as
exactly that composition; moreover the composition encloses precisely the
intersection of the two volumes (De Morgan: A∩B = ¬(¬A ∪ ¬B)). -/
theorem intersect_deMorgan (a b : Solid) :
    intersectOp a b = invertOp (unionOp (invertOp a) (invertOp b)) ∧
    sameVolume (intersectOp a b) ⟨fun p => a.inside p && b.inside p⟩ := by
  refine ⟨rfl, ?_⟩
  intro p
  simp [intersectOp, invertOp, unionOp]

/-- Claim C2: a boolean operation with an empty operand (zero polygons): union
with an empty operand is absorbed as identity (the result encloses the same
volume — hence has the same measured volume and bounding box — as the other
operand), intersect with an empty operand forces an empty result, and subtract
of an empty operand leaves the other operand unchanged. -/
theorem boolean_empty_operand (a : Solid) :
    sameVolume (unionOp a emptySolid) a ∧
    sameVolume (unionOp emptySolid a) a ∧
    sameVolume (intersectOp a emptySolid) emptySolid ∧
    sameVolume (intersectOp emptySolid a) emptySolid ∧
    sameVolume (subtractOp a emptySolid) a := by
  refine ⟨?_, ?_, ?_, ?_, ?_⟩ <;> intro p <;>
    simp [unionOp, intersectOp, subtractOp, invertOp, emptySolid]

/-- Claim C6: `poly3.create` with an undefined argument or with fewer than 3
vertices returns the empty/invalid placeholder polygon: empty vertex list,
cached plane and boundingSphere unset. -/
theorem create_empty_placeholder :
    create none = { vertices := [], plane := none, boundingSphere := none } ∧
    ∀ vs : List Vec3, vs.length < 3 →
      create (some vs) = { vertices := [], plane := none, boundingSphere := none } := by
  refine ⟨rfl, ?_⟩
  intro vs h
  simp [create, h]

/-- Witness for `create_empty_placeholder` at a concrete two-vertex list. -/
theorem create_empty_placeholder_witness :
    ([((0 : ℚ), (0 : ℚ), (0 : ℚ)), ((1 : ℚ), (0 : ℚ), (0 : ℚ))] : List Vec3).length < 3 ∧
    create (some [((0 : ℚ), (0 : ℚ), (0 : ℚ)), ((1 : ℚ), (0 : ℚ), (0 : ℚ))]) =
      { vertices := [], plane := none, boundingSphere := none } :=
  ⟨by decide, create_empty_placeholder.2 _ (by decide)⟩

/-- Claim C7: `minkowskiSum` with fewer than 2 or with more than 2 operands
fails immediately at entry with the corresponding operand-count error — the
result does not depend on the convexity analysis (`isConvexFn`) or on either
geometry-construction path, which captures that the error is raised before any
convexity analysis or geometry construction is performed. -/
theorem minkowskiSum_operand_count (isConvexFn : Geom3 → Bool)
    (sumConvex sumNonConvex : Geom3 → Geom3 → Geom3) (geometries : List JSValue) :
    (geometries.length < 2 →
      minkowskiSum isConvexFn sumConvex sumNonConvex geometries =
        Except.error MinkErr.atLeastTwo) ∧
    (2 < geometries.length →
      minkowskiSum isConvexFn sumConvex sumNonConvex geometries =
        Except.error MinkErr.exactlyTwo) := by
  constructor <;> intro h <;> unfold minkowskiSum
  · rw [if_pos h]
  · rw [if_neg (by omega), if_pos h]

/-- Witness for `minkowskiSum_operand_count`: one operand and three operands,
with arbitrary convexity/construction stages. -/
theorem minkowskiSum_operand_count_witness :
    ([JSValue.other "solo"] : List JSValue).length < 2 ∧
    minkowskiSum (fun _ => true) (fun g _ => g) (fun g _ => g) [JSValue.other "solo"] =
      Except.error MinkErr.atLeastTwo ∧
    2 < ([JSValue.geom [], JSValue.geom [], JSValue.geom []] : List JSValue).length ∧
    minkowskiSum (fun _ => false) (fun g _ => g) (fun g _ => g)
        [JSValue.geom [], JSValue.geom [], JSValue.geom []] =
      Except.error MinkErr.exactlyTwo :=
  ⟨by decide,
   (minkowskiSum_operand_count (fun _ => true) (fun g _ => g) (fun g _ => g) _).1 (by decide),
   by decide,
   (minkowskiSum_operand_count (fun _ => false) (fun g _ => g) (fun g _ => g) _).2 (by decide)⟩

/-- Counterexample to claim C8: the non-geometry error of the operator entry in
the excerpt (`minkowskiSum`, the code the claim cites) does *not* name the
offending argument position: passing the non-geometry value as the first
operand and passing it as the second operand produce the *same* error value,
whose message is the fixed string "minkowskiSum requires geom3 geometries" —
so the error cannot identify which argument offended. -/
theorem minkowskiSum_error_position_blind :
    minkowskiSum (fun _ => true) (fun g _ => g) (fun g _ => g)
        [JSValue.other "invalid", JSValue.geom []] =
      Except.error MinkErr.requiresGeom3 ∧
    minkowskiSum (fun _ => true) (fun g _ => g) (fun g _ => g)
        [JSValue.geom [], JSValue.other "invalid"] =
      Except.error MinkErr.requiresGeom3 ∧
    minkErrMessage MinkErr.requiresGeom3 = "minkowskiSum requires geom3 geometries" :=
  ⟨rfl, rfl, rfl⟩

/-- Claim C8 as amended: a non-geometry value passed where a solid is expected is
reported immediately at the operator's entry — before any convexity analysis
or geometry construction, captured by independence from the three stage
parameters — but with a fixed error message that does not name the offending
argument position. -/
theorem minkowskiSum_nonGeometry_entry (isConvexFn : Geom3 → Bool)
    (sumConvex sumNonConvex : Geom3 → Geom3 → Geom3) (a b : JSValue)
    (h : isGeom3 a = false ∨ isGeom3 b = false) :
    minkowskiSum isConvexFn sumConvex sumNonConvex [a, b] =
      Except.error MinkErr.requiresGeom3 := by
  unfold minkowskiSum
  rw [if_neg (by simp), if_neg (by simp)]
  rcases h with h | h <;> simp [h]

/-- Witness for `minkowskiSum_nonGeometry_entry` with a concrete non-geometry
first operand. -/
theorem minkowskiSum_nonGeometry_entry_witness :
    isGeom3 (JSValue.other "wrong type") = false ∧
    minkowskiSum (fun _ => true) (fun g _ => g) (fun g _ => g)
        [JSValue.other "wrong type", JSValue.geom []] =
      Except.error MinkErr.requiresGeom3 :=
  ⟨rfl,
   minkowskiSum_nonGeometry_entry (fun _ => true) (fun g _ => g) (fun g _ => g) _ _
     (Or.inl rfl)⟩

/-- Claim C10: `poly3.invert` returns a new polygon whose vertex sequence is the
reversal of the input's, whose cached plane (when the input has one) is the
input's plane flipped (all four components negated), and whose bounding-sphere
cache starts unset; the input polygon is only read (the embedding is a pure
function of it), so it is left unmodified.  The hypothesis restricts to vertex
lists that `poly3.create` can produce (empty, or at least 3 vertices). -/
theorem invert_reverses_vertices_flips_plane (p : Poly3)
    (h : p.vertices = [] ∨ 3 ≤ p.vertices.length) :
    (invert p).vertices = p.vertices.reverse ∧
    (invert p).plane = p.plane.map planeFlip ∧
    (invert p).boundingSphere = none := by
  have hc : create (some p.vertices.reverse) =
      { vertices := p.vertices.reverse, plane := none, boundingSphere := none } := by
    rcases h with h | h
    · simp [create, h]
    · simp only [create]
      rw [if_neg (by rw [List.length_reverse]; omega)]
  unfold invert
  cases hp : p.plane <;> simp [hp, hc]

/-- Witness for `invert_reverses_vertices_flips_plane` at a concrete triangle
with a cached plane. -/
theorem invert_witness :
    3 ≤ ({ vertices := [(0, 0, 0), (4, 0, 0), (0, 3, 0)], plane := some (0, 0, 1, 0),
           boundingSphere := none } : Poly3).vertices.length ∧
    ((invert { vertices := [(0, 0, 0), (4, 0, 0), (0, 3, 0)], plane := some (0, 0, 1, 0),
               boundingSphere := none }).vertices =
        ([(0, 0, 0), (4, 0, 0), (0, 3, 0)] : List Vec3).reverse ∧
      (invert { vertices := [(0, 0, 0), (4, 0, 0), (0, 3, 0)], plane := some (0, 0, 1, 0),
                boundingSphere := none }).plane =
        (some ((0 : ℚ), (0 : ℚ), (1 : ℚ), (0 : ℚ))).map planeFlip ∧
      (invert { vertices := [(0, 0, 0), (4, 0, 0), (0, 3, 0)], plane := some (0, 0, 1, 0),
                boundingSphere := none }).boundingSphere = none) :=
  ⟨by decide, invert_reverses_vertices_flips_plane _ (Or.inr (by decide))⟩

/-- Claim C5: cached derived quantities are stable.  A second call to
`measureBoundingSphere` (resp. the plane accessor) on the polygon returned by
the first call yields the bit-identical sphere (resp. plane) and leaves the
polygon unchanged; and once a cache holds a value, the accessor returns exactly
that value without touching the polygon — the cache is never recomputed or
invalidated for the instance. -/
theorem cached_quantities_stable (p : Poly3) :
    measureBoundingSphere (measureBoundingSphere p).2 = measureBoundingSphere p ∧
    planeOf (planeOf p).2 = planeOf p ∧
    (∀ s, p.boundingSphere = some s → measureBoundingSphere p = (s, p)) ∧
    (∀ pl, p.plane = some pl → planeOf p = (pl, p)) := by
  refine ⟨?_, ?_, ?_, ?_⟩
  · cases hb : p.boundingSphere with
    | some s => simp [measureBoundingSphere, hb]
    | none =>
      cases hv : p.vertices with
      | nil => simp [measureBoundingSphere, hb, hv]
      | cons v0 rest => simp [measureBoundingSphere, hb, hv]
  · cases hp : p.plane with
    | some pl => simp [planeOf, hp]
    | none =>
      rcases hv : p.vertices with _ | ⟨a, _ | ⟨b, _ | ⟨c, t⟩⟩⟩ <;>
        simp [planeOf, hp, hv]
  · intro s hs
    simp [measureBoundingSphere, hs]
  · intro pl hp
    simp [planeOf, hp]

/-- Witness for `cached_quantities_stable`: a polygon whose caches already hold
values is returned unchanged with exactly those values. -/
theorem cached_quantities_stable_witness :
    ({ vertices := [(0, 0, 0), (4, 0, 0), (0, 3, 0)], plane := some (0, 0, 1, 0),
       boundingSphere := some ((2, 3 / 2, 0), 25 / 4) } : Poly3).boundingSphere =
      some ((2, 3 / 2, 0), 25 / 4) ∧
    measureBoundingSphere
        { vertices := [(0, 0, 0), (4, 0, 0), (0, 3, 0)], plane := some (0, 0, 1, 0),
          boundingSphere := some ((2, 3 / 2, 0), 25 / 4) } =
      (((2, 3 / 2, 0), 25 / 4),
       { vertices := [(0, 0, 0), (4, 0, 0), (0, 3, 0)], plane := some (0, 0, 1, 0),
         boundingSphere := some ((2, 3 / 2, 0), 25 / 4) }) ∧
    planeOf
        { vertices := [(0, 0, 0), (4, 0, 0), (0, 3, 0)], plane := some (0, 0, 1, 0),
          boundingSphere := some ((2, 3 / 2, 0), 25 / 4) } =
      (((0 : ℚ), (0 : ℚ), (1 : ℚ), (0 : ℚ)),
       { vertices := [(0, 0, 0), (4, 0, 0), (0, 3, 0)], plane := some (0, 0, 1, 0),
         boundingSphere := some ((2, 3 / 2, 0), 25 / 4) }) :=
  ⟨rfl,
   (cached_quantities_stable _).2.2.1 _ rfl,
   (cached_quantities_stable _).2.2.2 _ rfl⟩

/-- The six trackers of the `measureBoundingSphere` loop evolve independently:
the fold of `bsStep` is the tuple of six single-tracker folds. -/
theorem foldl_bsStep_decompose (l : List Vec3) (a1 a2 a3 a4 a5 a6 : Vec3) :
    l.foldl bsStep (a1, a2, a3, a4, a5, a6) =
      (l.foldl (minBy Vec3.x) a1, l.foldl (minBy Vec3.y) a2,
       l.foldl (minBy Vec3.z) a3, l.foldl (maxBy Vec3.x) a4,
       l.foldl (maxBy Vec3.y) a5, l.foldl (maxBy Vec3.z) a6) := by
  induction l generalizing a1 a2 a3 a4 a5 a6 with
  | nil => rfl
  | cons v t ih =>
    simp only [List.foldl_cons]
    rw [show bsStep (a1, a2, a3, a4, a5, a6) v =
        (minBy Vec3.x a1 v, minBy Vec3.y a2 v, minBy Vec3.z a3 v,
         maxBy Vec3.x a4 v, maxBy Vec3.y a5 v, maxBy Vec3.z a6 v) from rfl]
    exact ih _ _ _ _ _ _

/-- A `minBy` fold lower-bounds the key of its start value and of every list
element. -/
theorem foldl_minBy_le (key : Vec3 → ℚ) (l : List Vec3) (a : Vec3) :
    key (l.foldl (minBy key) a) ≤ key a ∧
      ∀ v ∈ l, key (l.foldl (minBy key) a) ≤ key v := by
  induction l generalizing a with
  | nil => simp
  | cons w t ih =>
    simp only [List.foldl_cons]
    have hstep : key (minBy key a w) ≤ key a ∧ key (minBy key a w) ≤ key w := by
      unfold minBy
      split
      · exact ⟨le_of_lt (by assumption), le_refl _⟩
      · exact ⟨le_refl _, le_of_not_lt (by assumption)⟩
    obtain ⟨ih1, ih2⟩ := ih (minBy key a w)
    refine ⟨le_trans ih1 hstep.1, ?_⟩
    intro v hv
    rcases List.mem_cons.mp hv with rfl | hv
    · exact le_trans ih1 hstep.2
    · exact ih2 v hv

/-- A `maxBy` fold upper-bounds the key of its start value and of every list
element. -/
theorem foldl_maxBy_ge (key : Vec3 → ℚ) (l : List Vec3) (a : Vec3) :
    key a ≤ key (l.foldl (maxBy key) a) ∧
      ∀ v ∈ l, key v ≤ key (l.foldl (maxBy key) a) := by
  induction l generalizing a with
  | nil => simp
  | cons w t ih =>
    simp only [List.foldl_cons]
    have hstep : key a ≤ key (maxBy key a w) ∧ key w ≤ key (maxBy key a w) := by
      unfold maxBy
      split
      · exact ⟨le_of_lt (by assumption), le_refl _⟩
      · exact ⟨le_refl _, le_of_not_lt (by assumption)⟩
    obtain ⟨ih1, ih2⟩ := ih (maxBy key a w)
    refine ⟨le_trans hstep.1 ih1, ?_⟩
    intro v hv
    rcases List.mem_cons.mp hv with rfl | hv
    · exact le_trans hstep.2 ih1
    · exact ih2 v hv

/-- Every vertex of the polygon lies within the computed bounding sphere (the
squared distance to the center is at most the squared radius). -/
theorem computeBoundingSphere_contains (v0 : Vec3) (rest : List Vec3) :
    ∀ v ∈ v0 :: rest,
      squaredDistance v (computeBoundingSphere v0 rest).1 ≤
        (computeBoundingSphere v0 rest).2 := by
  intro v hv
  have hd := foldl_bsStep_decompose (v0 :: rest) v0 v0 v0 v0 v0 v0
  have hcb : computeBoundingSphere v0 rest =
      (((((v0 :: rest).foldl (minBy Vec3.x) v0).x +
            ((v0 :: rest).foldl (maxBy Vec3.x) v0).x) * (1 / 2),
        (((v0 :: rest).foldl (minBy Vec3.y) v0).y +
            ((v0 :: rest).foldl (maxBy Vec3.y) v0).y) * (1 / 2),
        (((v0 :: rest).foldl (minBy Vec3.z) v0).z +
            ((v0 :: rest).foldl (maxBy Vec3.z) v0).z) * (1 / 2)),
       ((((v0 :: rest).foldl (minBy Vec3.x) v0).x +
            ((v0 :: rest).foldl (maxBy Vec3.x) v0).x) * (1 / 2) -
          ((v0 :: rest).foldl (maxBy Vec3.x) v0).x) *
        ((((v0 :: rest).foldl (minBy Vec3.x) v0).x +
            ((v0 :: rest).foldl (maxBy Vec3.x) v0).x) * (1 / 2) -
          ((v0 :: rest).foldl (maxBy Vec3.x) v0).x) +
        ((((v0 :: rest).foldl (minBy Vec3.y) v0).y +
            ((v0 :: rest).foldl (maxBy Vec3.y) v0).y) * (1 / 2) -
          ((v0 :: rest).foldl (maxBy Vec3.y) v0).y) *
        ((((v0 :: rest).foldl (minBy Vec3.y) v0).y +
            ((v0 :: rest).foldl (maxBy Vec3.y) v0).y) * (1 / 2) -
          ((v0 :: rest).foldl (maxBy Vec3.y) v0).y) +
        ((((v0 :: rest).foldl (minBy Vec3.z) v0).z +
            ((v0 :: rest).foldl (maxBy Vec3.z) v0).z) * (1 / 2) -
          ((v0 :: rest).foldl (maxBy Vec3.z) v0).z) *
        ((((v0 :: rest).foldl (minBy Vec3.z) v0).z +
            ((v0 :: rest).foldl (maxBy Vec3.z) v0).z) * (1 / 2) -
          ((v0 :: rest).foldl (maxBy Vec3.z) v0).z)) := by
    unfold computeBoundingSphere
    rw [hd]
  obtain ⟨-, hmnx⟩ := foldl_minBy_le Vec3.x (v0 :: rest) v0
  obtain ⟨-, hmny⟩ := foldl_minBy_le Vec3.y (v0 :: rest) v0
  obtain ⟨-, hmnz⟩ := foldl_minBy_le Vec3.z (v0 :: rest) v0
  obtain ⟨-, hmxx⟩ := foldl_maxBy_ge Vec3.x (v0 :: rest) v0
  obtain ⟨-, hmxy⟩ := foldl_maxBy_ge Vec3.y (v0 :: rest) v0
  obtain ⟨-, hmxz⟩ := foldl_maxBy_ge Vec3.z (v0 :: rest) v0
  have h1 := hmnx v hv
  have h2 := hmxx v hv
  have h3 := hmny v hv
  have h4 := hmxy v hv
  have h5 := hmnz v hv
  have h6 := hmxz v hv
  rw [hcb]
  simp only [squaredDistance, Vec3.x, Vec3.y, Vec3.z] at h1 h2 h3 h4 h5 h6 ⊢
  nlinarith [mul_nonneg (sub_nonneg.mpr h2) (sub_nonneg.mpr h1),
             mul_nonneg (sub_nonneg.mpr h4) (sub_nonneg.mpr h3),
             mul_nonneg (sub_nonneg.mpr h6) (sub_nonneg.mpr h5)]

/-- Claim C9: the sphere returned by `measureBoundingSphere` contains the
polygon — every vertex's squared distance to the returned center is at most
the returned squared radius (equivalently, distance ≤ radius, the square root
being monotone) — and for a polygon with zero vertices the result is the zero
sphere.  The hypothesis restricts to polygons whose cache is not pre-set, the
only state `poly3.create` produces. -/
theorem measureBoundingSphere_contains (p : Poly3) (hc : p.boundingSphere = none) :
    (p.vertices = [] → (measureBoundingSphere p).1 = ((0, 0, 0), 0)) ∧
    ∀ v ∈ p.vertices,
      squaredDistance v (measureBoundingSphere p).1.1 ≤ (measureBoundingSphere p).1.2 := by
  rcases hv : p.vertices with _ | ⟨v0, rest⟩
  · constructor
    · intro
      simp [measureBoundingSphere, hc, hv]
    · intro v hmem
      exact absurd hmem (List.not_mem_nil v)
  · constructor
    · intro h
      exact absurd h (by simp)
    · intro v hmem
      have hm : (measureBoundingSphere p).1 = computeBoundingSphere v0 rest := by
        simp [measureBoundingSphere, hc, hv]
      rw [hm]
      exact computeBoundingSphere_contains v0 rest v hmem

/-- Witness for `measureBoundingSphere_contains`: a concrete right triangle;
each of its vertices lies within the computed sphere. -/
theorem measureBoundingSphere_contains_witness :
    ({ vertices := [(0, 0, 0), (4, 0, 0), (0, 3, 0)], plane := none,
       boundingSphere := none } : Poly3).boundingSphere = none ∧
    squaredDistance (0, 0, 0)
        (measureBoundingSphere
          { vertices := [(0, 0, 0), (4, 0, 0), (0, 3, 0)], plane := none,
            boundingSphere := none }).1.1 ≤
      (measureBoundingSphere
          { vertices := [(0, 0, 0), (4, 0, 0), (0, 3, 0)], plane := none,
            boundingSphere := none }).1.2 :=
  ⟨rfl,
   (measureBoundingSphere_contains _ rfl).2 (0, 0, 0) (by decide)⟩

/-- Claim C3: `splitPolygonByPlane` is a total function — a spanning split never
raises an error — and whenever a resulting fragment collapses to fewer than 3
vertices it is silently discarded (`none`); every fragment that survives a
spanning split has at least 3 vertices, and the operation continues with the
surviving fragment alone. -/
theorem splitPolygonByPlane_spanning_min_vertices (pl : Plane4) (p : Poly3)
    (fr bk : Option (List Vec3))
    (h : splitPolygonByPlane pl p = SplitOutcome.spanning fr bk) :
    (∀ q, fr = some q → 3 ≤ q.length) ∧ (∀ q, bk = some q → 3 ≤ q.length) := by
  simp only [splitPolygonByPlane] at h
  split_ifs at h with h1 h2 h3 h4 h5 h6 <;> simp only [SplitOutcome.spanning.injEq] at h
  all_goals
    obtain ⟨hf, hb⟩ := h
  all_goals
    subst hf
  all_goals
    subst hb
  all_goals
    constructor <;> intro q hq <;>
      first
        | exact Option.noConfusion hq
        | exact (Option.some.inj hq) ▸ (by assumption)

/-- Witness for `splitPolygonByPlane_spanning_min_vertices`: a sliver triangle
spanning the plane `z = 0` whose two edge-plane intersection points land
within `EPS` of each other.  The back fragment collapses to 2 vertices after
duplicate removal and is silently discarded, while the split proceeds with the
surviving 3-vertex front fragment. -/
theorem splitPolygonByPlane_witness :
    splitPolygonByPlane ((0 : ℚ), (0 : ℚ), (1 : ℚ), (0 : ℚ))
        { vertices := [(0, 0, 100000), (1, 0, -1 / 50000), (2, 0, 100000)],
          plane := none, boundingSphere := none } =
      SplitOutcome.spanning
        (some [(0, 0, 100000), (5000000000 / 5000000001, 0, 0), (2, 0, 100000)])
        none ∧
    3 ≤ ([((0 : ℚ), (0 : ℚ), (100000 : ℚ)),
          ((5000000000 : ℚ) / 5000000001, (0 : ℚ), (0 : ℚ)),
          ((2 : ℚ), (0 : ℚ), (100000 : ℚ))] : List Vec3).length := by
  have hev :
      splitPolygonByPlane ((0 : ℚ), (0 : ℚ), (1 : ℚ), (0 : ℚ))
          { vertices := [(0, 0, 100000), (1, 0, -1 / 50000), (2, 0, 100000)],
            plane := none, boundingSphere := none } =
        SplitOutcome.spanning
          (some [(0, 0, 100000), (5000000000 / 5000000001, 0, 0), (2, 0, 100000)])
          none := by
    norm_num [splitPolygonByPlane, spanLists, edgeContrib, dedupCyclic, dedupVertices,
      signedDistance, squaredDistance, lerp, EPS, Vec3.x, Vec3.y, Vec3.z, List.rotate]
  exact ⟨hev,
    (splitPolygonByPlane_spanning_min_vertices _ _ _ _ hev).1 _ rfl⟩

/-- JavaScript rounding (`Math.round`) of an integer is that integer. -/
theorem jsRound_intCast (n : ℤ) : jsRound (n : ℚ) = n := by
  unfold jsRound
  rw [Int.floor_int_add]
  norm_num

/-- Grid snapping of one coordinate is idempotent for a nonzero tolerance. -/
theorem snapCoord_idem (tolerance : ℚ) (ht : tolerance ≠ 0) (x : ℚ) :
    snapCoord tolerance (snapCoord tolerance x) = snapCoord tolerance x := by
  unfold snapCoord
  rw [mul_div_cancel_right₀ _ ht, jsRound_intCast]

/-- Grid snapping of a vertex is idempotent for a nonzero tolerance. -/
theorem snapVec_idem (tolerance : ℚ) (ht : tolerance ≠ 0) (v : Vec3) :
    snapVec tolerance (snapVec tolerance v) = snapVec tolerance v := by
  unfold snapVec
  simp [Vec3.x, Vec3.y, Vec3.z, snapCoord_idem tolerance ht]

/-- Duplicate removal only drops vertices: every survivor was in the input. -/
theorem dropCyclicDuplicates_subset (vs : List Vec3) :
    ∀ v ∈ dropCyclicDuplicates vs, v ∈ vs := by
  intro v hv
  unfold dropCyclicDuplicates at hv
  rw [List.mem_map] at hv
  obtain ⟨⟨pa, pb⟩, hpair, hpv⟩ := hv
  rw [List.mem_filter] at hpair
  have hz := (List.of_mem_zip hpair.1).1
  simp only at hpv
  rw [← hpv]
  exact hz

/-- The vertices of a polygon built by `create` all come from the given list. -/
theorem create_vertices_subset (vs : List Vec3) :
    ∀ w ∈ (create (some vs)).vertices, w ∈ vs := by
  intro w hw
  by_cases h : vs.length < 3
  · simp [create, h] at hw
  · simpa [create, h] using hw

/-- Counterexample to claim C4: `snapPolygons` does *not* merge every pair of
vertices lying within the tolerance of each other, and it *does* alter
vertices that are farther than the tolerance from every other vertex.  Under
tolerance 10, the vertices `(4,4,4)` and `(6,6,6)` are within the tolerance
(squared distance 12 < 10²) yet straddle a grid-cell midpoint and snap to the
distinct vertices `(0,0,0)` and `(10,10,10)`; and the vertex `(106,53,0)`,
farther than the tolerance from both of its polygon's other vertices, is
nevertheless altered to `(110,50,0)`.  (The same cell-midpoint mechanism
applies at the spec's tolerance `0.0001` with vertices differing by `1e-6`,
e.g. x-coordinates `0.0000495` and `0.0000505`.) -/
theorem snapPolygons_counterexample :
    squaredDistance (4, 4, 4) (6, 6, 6) < 10 * 10 ∧
    snapPolygons 10
        [create (some [(4, 4, 4), (100, 0, 0), (106, 53, 0)]),
         create (some [(6, 6, 6), (200, 0, 0), (200, 200, 0)])] =
      [{ vertices := [(0, 0, 0), (100, 0, 0), (110, 50, 0)], plane := none,
         boundingSphere := none },
       { vertices := [(10, 10, 10), (200, 0, 0), (200, 200, 0)], plane := none,
         boundingSphere := none }] ∧
    ((0 : ℚ), (0 : ℚ), (0 : ℚ)) ≠ ((10 : ℚ), (10 : ℚ), (10 : ℚ)) ∧
    10 * 10 < squaredDistance (106, 53, 0) (4, 4, 4) ∧
    10 * 10 < squaredDistance (106, 53, 0) (100, 0, 0) ∧
    ((110 : ℚ), (50 : ℚ), (0 : ℚ)) ≠ ((106 : ℚ), (53 : ℚ), (0 : ℚ)) := by
  refine ⟨by norm_num [squaredDistance, Vec3.x, Vec3.y, Vec3.z], ?_,
    by norm_num [Prod.ext_iff],
    by norm_num [squaredDistance, Vec3.x, Vec3.y, Vec3.z],
    by norm_num [squaredDistance, Vec3.x, Vec3.y, Vec3.z],
    by norm_num [Prod.ext_iff]⟩
  norm_num [snapPolygons, snapVec, snapCoord, jsRound, dropCyclicDuplicates, create,
    List.rotate, Vec3.x, Vec3.y, Vec3.z, List.filter_cons, Bool.not_eq_true',
    decide_eq_true_eq, Prod.ext_iff]

/-- Claim C4 as amended: `snapPolygons` quantises every vertex coordinate to the
nearest multiple of the tolerance (round half up), so vertices merge exactly
when they quantise to the same grid point — vertices within tolerance of one
another that straddle a grid-cell midpoint stay distinct, and off-grid
vertices are altered even when isolated; every polygon of the result has at
least 3 vertices (polygons degenerating to fewer than 3 after snapping and
cyclic duplicate removal are dropped), and every vertex of the result is a
fixed point of the snap (it lies on the grid). -/
theorem snapPolygons_quantises (tolerance : ℚ) (polygons : List Poly3)
    (ht : tolerance ≠ 0) :
    ∀ q ∈ snapPolygons tolerance polygons,
      3 ≤ q.vertices.length ∧ ∀ v ∈ q.vertices, snapVec tolerance v = v := by
  intro q hq
  unfold snapPolygons at hq
  rw [List.mem_filter] at hq
  obtain ⟨hmem, hlen⟩ := hq
  have hlen' : 2 < q.vertices.length := by simpa using hlen
  refine ⟨by omega, ?_⟩
  rw [List.mem_map] at hmem
  obtain ⟨p0, hp0, hqeq⟩ := hmem
  intro v hv
  rw [← hqeq] at hv
  have hvdrop := create_vertices_subset _ v hv
  have hvmap := dropCyclicDuplicates_subset _ v hvdrop
  obtain ⟨w, hw, rfl⟩ := List.mem_map.mp hvmap
  exact snapVec_idem tolerance ht w

/-- Witness for `snapPolygons_quantises` at tolerance 10 on a concrete
triangle: the surviving polygon has 3 vertices, all grid-aligned. -/
theorem snapPolygons_quantises_witness :
    ((10 : ℚ) ≠ 0) ∧
    (3 ≤ ({ vertices := [(0, 0, 0), (100, 0, 0), (110, 50, 0)], plane := none,
            boundingSphere := none } : Poly3).vertices.length ∧
      ∀ v ∈ ({ vertices := [(0, 0, 0), (100, 0, 0), (110, 50, 0)], plane := none,
               boundingSphere := none } : Poly3).vertices, snapVec 10 v = v) := by
  have hev : snapPolygons 10 [create (some [(4, 4, 4), (100, 0, 0), (106, 53, 0)])] =
      [{ vertices := [(0, 0, 0), (100, 0, 0), (110, 50, 0)], plane := none,
         boundingSphere := none }] := by
    norm_num [snapPolygons, snapVec, snapCoord, jsRound, dropCyclicDuplicates, create,
      List.rotate, Vec3.x, Vec3.y, Vec3.z, List.filter_cons, Bool.not_eq_true',
      decide_eq_true_eq, Prod.ext_iff]
  refine ⟨by norm_num,
    snapPolygons_quantises 10 [create (some [(4, 4, 4), (100, 0, 0), (106, 53, 0)])]
      (by norm_num) _ ?_⟩
  rw [hev]
  exact List.mem_singleton.mpr rfl
